import Mathlib

/-!
Verification of `src/create_icons.py` (amtrak-price-tracker icon generator).

The script draws a train icon with PIL: it allocates a transparent RGBA
square canvas of the requested size, applies a fixed sequence of filled
drawing primitives (ellipse, rounded rectangle, polygon, rectangle) whose
coordinates are the hardcoded base-128 coordinates scaled by `size/128`
and truncated to integers, and saves the result as a PNG file.

We embed the renderer shallowly: a `RasterImage` is a pixel function
together with its declared width, height and mode; each PIL draw call
becomes an `Instr` whose pixel coverage is an executable boolean
predicate, and drawing is the pointwise last-write-wins update.  The
instruction list `instrs` is transcribed from the source line by line,
with the window loop (`for i in range(4)`) and the wheel loop
(`for wx in [35, 58, 82]`) kept as maps over those very index lists.
-/

/-- An RGBA color, one byte per channel, as PIL stores pixels in RGBA mode. -/
structure Color where
  r : Nat
  g : Nat
  b : Nat
  a : Nat
deriving DecidableEq, Repr

/-- The fully transparent pixel `(0, 0, 0, 0)` used for the new canvas. -/
def transparent : Color := ⟨0, 0, 0, 0⟩

/-- The blue used for the background circle and the windows: `(26, 82, 118, 255)`. -/
def blue : Color := ⟨26, 82, 118, 255⟩

/-- PIL resolves the color name `'white'` in RGBA mode to `(255, 255, 255, 255)`. -/
def white : Color := ⟨255, 255, 255, 255⟩

/-- The wheel fill `(60, 60, 60, 255)`. -/
def wheelGray : Color := ⟨60, 60, 60, 255⟩

/-- The track fill `(80, 80, 80, 255)`. -/
def trackGray : Color := ⟨80, 80, 80, 255⟩

/-- The coordinate scaling of the script: `int(k * s)` with `s = size / 128`.
For nonnegative operands Python `int` truncation is the floor, so this is
natural-number division of `k * size` by `128`. -/
def scale (k size : Nat) : Nat := k * size / 128

/-- Membership in the inclusive axis-aligned box `[x0, y0, x1, y1]`,
the semantics of PIL `draw.rectangle`. -/
def inRect (x0 y0 x1 y1 x y : Int) : Bool :=
  x0 ≤ x && x ≤ x1 && y0 ≤ y && y ≤ y1

/-- Membership in the closed disk of radius `rad` centered at `(cx, cy)`. -/
def inDisk (cx cy rad x y : Int) : Bool :=
  (x - cx) ^ 2 + (y - cy) ^ 2 ≤ rad ^ 2

/-- Membership in the filled ellipse inscribed in the inclusive box
`[x0, y0, x1, y1]`, the semantics of PIL `draw.ellipse`: center
`((x0+x1)/2, (y0+y1)/2)` and semi-axes `(x1-x0)/2, (y1-y0)/2`, written
with doubled coordinates to stay in integers. -/
def inEllipse (x0 y0 x1 y1 x y : Int) : Bool :=
  (2 * x - (x0 + x1)) ^ 2 * (y1 - y0) ^ 2 + (2 * y - (y0 + y1)) ^ 2 * (x1 - x0) ^ 2
    ≤ (x1 - x0) ^ 2 * (y1 - y0) ^ 2

/-- Membership in the rounded rectangle with inclusive box `[x0, y0, x1, y1]`
and corner radius `rad`, the semantics of PIL `draw.rounded_rectangle` with
all four corners rounded: inside the box, and inside the corner disk when
the point falls in one of the four corner squares. -/
def inRoundedRect (x0 y0 x1 y1 rad x y : Int) : Bool :=
  inRect x0 y0 x1 y1 x y &&
    (if x < x0 + rad && y < y0 + rad then inDisk (x0 + rad) (y0 + rad) rad x y
     else if x1 - rad < x && y < y0 + rad then inDisk (x1 - rad) (y0 + rad) rad x y
     else if x < x0 + rad && y1 - rad < y then inDisk (x0 + rad) (y1 - rad) rad x y
     else if x1 - rad < x && y1 - rad < y then inDisk (x1 - rad) (y1 - rad) rad x y
     else true)

/-- The cross product of `(qx - px, qy - py)` and `(x - px, y - py)`,
used for the point-in-convex-polygon test. -/
def edgeSide (px py qx qy x y : Int) : Int :=
  (qx - px) * (y - py) - (qy - py) * (x - px)

/-- Membership in the filled convex quadrilateral with vertices
`(x0,y0), (x1,y1), (x2,y2), (x3,y3)` listed in order, the semantics of PIL
`draw.polygon` for the convex front wedge: the point lies on the inner side
of each directed edge. -/
def inQuad (x0 y0 x1 y1 x2 y2 x3 y3 x y : Int) : Bool :=
  0 ≤ edgeSide x0 y0 x1 y1 x y && 0 ≤ edgeSide x1 y1 x2 y2 x y &&
  0 ≤ edgeSide x2 y2 x3 y3 x y && 0 ≤ edgeSide x3 y3 x0 y0 x y

/-- One PIL draw call of the script: a filled ellipse, rounded rectangle,
quadrilateral polygon, or rectangle. -/
inductive Instr where
  | ellipse (x0 y0 x1 y1 : Int) (fill : Color)
  | rrect (x0 y0 x1 y1 rad : Int) (fill : Color)
  | quad (x0 y0 x1 y1 x2 y2 x3 y3 : Int) (fill : Color)
  | rect (x0 y0 x1 y1 : Int) (fill : Color)
deriving DecidableEq, Repr

/-- The fill color of a drawing instruction. -/
def Instr.fillColor : Instr → Color
  | .ellipse _ _ _ _ c => c
  | .rrect _ _ _ _ _ c => c
  | .quad _ _ _ _ _ _ _ _ c => c
  | .rect _ _ _ _ c => c

/-- Whether a drawing instruction paints the pixel `(x, y)`. -/
def Instr.covers : Instr → Int → Int → Bool
  | .ellipse x0 y0 x1 y1 _, x, y => inEllipse x0 y0 x1 y1 x y
  | .rrect x0 y0 x1 y1 rad _, x, y => inRoundedRect x0 y0 x1 y1 rad x y
  | .quad x0 y0 x1 y1 x2 y2 x3 y3 _, x, y => inQuad x0 y0 x1 y1 x2 y2 x3 y3 x y
  | .rect x0 y0 x1 y1 _, x, y => inRect x0 y0 x1 y1 x y

/-- An in-memory raster image: declared pixel dimensions, the PIL mode
string, and the pixel grid as a function. -/
structure RasterImage where
  width : Nat
  height : Nat
  mode : String
  px : Int → Int → Color

/-- `Image.new('RGBA', (size, size), (0, 0, 0, 0))`: a fully transparent
square RGBA canvas. -/
def newImage (size : Nat) : RasterImage :=
  ⟨size, size, "RGBA", fun _ _ => transparent⟩

/-- One PIL draw call on an image: every pixel the instruction covers takes
the instruction's fill color, every other pixel keeps its previous color
(last-write-wins), and the dimensions and mode are untouched. -/
def drawOn (img : RasterImage) (i : Instr) : RasterImage :=
  { img with px := fun x y => if i.covers x y then i.fillColor else img.px x y }

/-- The window loop indices of the script: `for i in range(4)`. -/
def windowIdxs : List Nat := List.range 4

/-- The window instructions: for each `i` in `range(4)`,
`left = int(26*s) + i * int(14*s)` and a rounded rectangle
`[left, int(52*s), left + int(10*s), int(68*s)]` of radius `int(2*s)`
filled with the blue `(26, 82, 118, 255)`. -/
def windowInstrs (size : Nat) : List Instr :=
  windowIdxs.map fun i =>
    let left : Int := (scale 26 size : Nat) + (i : Int) * (scale 14 size : Nat)
    .rrect left (scale 52 size) (left + (scale 10 size : Nat)) (scale 68 size)
      (scale 2 size) blue

/-- The wheel x-coordinates of the script: `for wx in [35, 58, 82]`. -/
def wheelXs : List Nat := [35, 58, 82]

/-- The wheel instructions: for each `wx` in `[35, 58, 82]`, `cx = int(wx*s)`
and an ellipse `[cx - int(7*s), int(81*s), cx + int(7*s), int(95*s)]` filled
with `(60, 60, 60, 255)`. -/
def wheelInstrs (size : Nat) : List Instr :=
  wheelXs.map fun wx =>
    let cx : Int := (scale wx size : Nat)
    .ellipse (cx - (scale 7 size : Nat)) (scale 81 size) (cx + (scale 7 size : Nat))
      (scale 95 size) wheelGray

/-- The full draw-call sequence of `create_train_icon`, in source order:
blue circle background, train body, train front, four windows, three
wheels, track. -/
def instrs (size : Nat) : List Instr :=
  let margin : Int := (scale 4 size : Nat)
  [Instr.ellipse margin margin ((size : Int) - margin) ((size : Int) - margin) blue,
   Instr.rrect (scale 18 size) (scale 45 size) (scale 100 size) (scale 85 size)
     (scale 8 size) white,
   Instr.quad (scale 100 size) (scale 45 size) (scale 115 size) (scale 55 size)
     (scale 115 size) (scale 75 size) (scale 100 size) (scale 85 size) white]
  ++ windowInstrs size ++ wheelInstrs size ++
  [Instr.rect (scale 10 size) (scale 94 size) (scale 118 size) (scale 97 size) trackGray]

/-- The raster image built by `create_train_icon(size, filename)` just
before `img.save`: the draw calls applied in order to the fresh canvas. -/
def create_train_icon (size : Nat) : RasterImage :=
  (instrs size).foldl drawOn (newImage size)

/-- The spec's description of the VectorShapes renderer as one flat,
fixed, pre-defined instruction sequence: background circle, body, front
wedge, the four window cut-outs written out, the three wheels written
out, track, every coordinate scaled by `size/128`. -/
def specInstrs (size : Nat) : List Instr :=
  let margin : Int := (scale 4 size : Nat)
  let wleft : Int := (scale 26 size : Nat)
  let wstep : Int := (scale 14 size : Nat)
  let wwidth : Int := (scale 10 size : Nat)
  let wrad : Int := (scale 7 size : Nat)
  [Instr.ellipse margin margin ((size : Int) - margin) ((size : Int) - margin) blue,
   Instr.rrect (scale 18 size) (scale 45 size) (scale 100 size) (scale 85 size)
     (scale 8 size) white,
   Instr.quad (scale 100 size) (scale 45 size) (scale 115 size) (scale 55 size)
     (scale 115 size) (scale 75 size) (scale 100 size) (scale 85 size) white,
   Instr.rrect wleft (scale 52 size) (wleft + wwidth) (scale 68 size) (scale 2 size) blue,
   Instr.rrect (wleft + wstep) (scale 52 size) (wleft + wstep + wwidth) (scale 68 size)
     (scale 2 size) blue,
   Instr.rrect (wleft + 2 * wstep) (scale 52 size) (wleft + 2 * wstep + wwidth)
     (scale 68 size) (scale 2 size) blue,
   Instr.rrect (wleft + 3 * wstep) (scale 52 size) (wleft + 3 * wstep + wwidth)
     (scale 68 size) (scale 2 size) blue,
   Instr.ellipse ((scale 35 size : Nat) - wrad) (scale 81 size)
     ((scale 35 size : Nat) + wrad) (scale 95 size) wheelGray,
   Instr.ellipse ((scale 58 size : Nat) - wrad) (scale 81 size)
     ((scale 58 size : Nat) + wrad) (scale 95 size) wheelGray,
   Instr.ellipse ((scale 82 size : Nat) - wrad) (scale 81 size)
     ((scale 82 size : Nat) + wrad) (scale 95 size) wheelGray,
   Instr.rect (scale 10 size) (scale 94 size) (scale 118 size) (scale 97 size) trackGray]

/-- The spec-side renderer: the flat instruction sequence applied, in its
fixed order, to an initially fully transparent `size × size` canvas, a
later instruction overwriting an earlier one wherever both paint. -/
def specRender (size : Nat) : RasterImage :=
  (specInstrs size).foldl drawOn (newImage size)

/-- An abstract PNG encoding of an image: the declared dimensions (as the
PNG header records them) followed by the pixel bytes row by row, four
bytes per pixel.  Pure, so encoding depends on nothing but the image. -/
def pngEncode (img : RasterImage) : List Nat :=
  img.width :: img.height ::
    ((List.range img.height).flatMap fun y =>
      (List.range img.width).flatMap fun x =>
        [(img.px x y).r, (img.px x y).g, (img.px x y).b, (img.px x y).a])

/-- The dimensions a PNG byte stream declares. -/
def pngDims : List Nat → Option (Nat × Nat)
  | w :: h :: _ => some (w, h)
  | _ => none

/-- A file path split into its destination directory and base name; the
script always writes into one fixed `icons` directory. -/
structure IconPath where
  dir : String
  base : String
deriving DecidableEq

/-- The single error of the spec's taxonomy surfaced by `save`: a
FileWriteFailure reported as an IOError naming the offending directory. -/
inductive SaveError where
  | ioError (dir : String)
deriving DecidableEq

/-- Modelled from the spec: the filesystem that PIL `img.save(filename,
'PNG')` writes to is outside `src/create_icons.py`, so it is modelled
from the spec's words — a directory is either usable (it exists and is
writable) or not, and files map paths to byte contents. -/
structure FileSystem where
  dirOk : String → Bool
  files : IconPath → Option (List Nat)

/-- Modelled from the spec: `save` encodes the RasterImage as PNG and
writes it to the given path, creating the file if absent and overwriting
it if present; it fails with an IOError exactly when the destination
directory does not exist or is not writable, and an error leaves the
filesystem untouched (no partial file). -/
def save (fs : FileSystem) (img : RasterImage) (p : IconPath) : Except SaveError FileSystem :=
  if fs.dirOk p.dir then
    .ok { fs with files := fun q => if q = p then some (pngEncode img) else fs.files q }
  else
    .error (.ioError p.dir)

/-- One full `create_train_icon(size, filename)` call: render the icon
(pure) and save it at the given path; the only filesystem step is the
single `save`. -/
def create_train_icon_run (fs : FileSystem) (size : Nat) (p : IconPath) :
    Except SaveError FileSystem :=
  save fs (create_train_icon size) p

/-- The fixed output directory of the script. -/
def iconsDir : String :=
  "/Users/clairemcgonigle/Desktop/repos/amtrak-price-tracker/icons"

/-- The path of the 16-pixel icon. -/
def icon16Path : IconPath := ⟨iconsDir, "icon16.png"⟩

/-- The path of the 48-pixel icon. -/
def icon48Path : IconPath := ⟨iconsDir, "icon48.png"⟩

/-- The path of the 128-pixel icon. -/
def icon128Path : IconPath := ⟨iconsDir, "icon128.png"⟩

/-- The three top-level calls of the script, in order. -/
def mainCalls : List (Nat × IconPath) :=
  [(16, icon16Path), (48, icon48Path), (128, icon128Path)]

/-- Runs a list of `create_train_icon` calls sequentially.  An uncaught
error from one call aborts the script, so later calls never run; the
filesystem state at the moment of the error is returned with it. -/
def runCalls : List (Nat × IconPath) → FileSystem → FileSystem × Option SaveError
  | [], fs => (fs, none)
  | c :: rest, fs =>
      match create_train_icon_run fs c.1 c.2 with
      | .ok fs' => runCalls rest fs'
      | .error e => (fs, some e)

/-- The script's top level: the three icon calls, in order. -/
def runMain (fs : FileSystem) : FileSystem × Option SaveError :=
  runCalls mainCalls fs

/-- The four corner pixels of a `size × size` canvas. -/
def cornerPixels (size : Nat) : List (Int × Int) :=
  [(0, 0), ((size : Int) - 1, 0), (0, (size : Int) - 1),
   ((size : Int) - 1, (size : Int) - 1)]

/-- An example filesystem whose every directory is usable and which holds
no files. -/
def emptyFS : FileSystem := ⟨fun _ => true, fun _ => none⟩

/-- An example filesystem with no usable directory and no files. -/
def noDirFS : FileSystem := ⟨fun _ => false, fun _ => none⟩

/-! ## Helper lemmas -/

/-- The abstract PNG stream declares exactly the encoded image's
dimensions. -/
theorem pngDims_pngEncode (img : RasterImage) :
    pngDims (pngEncode img) = some (img.width, img.height) := rfl

/-- The window and wheel loops expanded: the source's loop-built
instruction list is the spec's flat list. -/
theorem instrs_eq_specInstrs (size : Nat) : instrs size = specInstrs size := by
  simp [instrs, specInstrs, windowInstrs, wheelInstrs, windowIdxs, wheelXs,
    List.range_succ]

/-- The filesystem after a successful save of the size-`S` icon at `p`. -/
def writeIcon (fs : FileSystem) (S : Nat) (p : IconPath) : FileSystem :=
  ⟨fs.dirOk, fun q =>
    if q = p then some (pngEncode (create_train_icon S)) else fs.files q⟩

/-- A `create_train_icon` call on a usable destination directory
succeeds and writes the icon's PNG bytes at its path. -/
theorem run_ok (fs : FileSystem) (S : Nat) (p : IconPath)
    (h : fs.dirOk p.dir = true) :
    create_train_icon_run fs S p = .ok (writeIcon fs S p) := by
  rw [create_train_icon_run, save, if_pos h]
  rfl

/-- A `create_train_icon` call on a missing or unwritable destination
directory fails with the IOError naming it. -/
theorem run_err (fs : FileSystem) (S : Nat) (p : IconPath)
    (h : fs.dirOk p.dir = false) :
    create_train_icon_run fs S p = .error (.ioError p.dir) := by
  rw [create_train_icon_run, save, if_neg (by simp [h])]

/-- Running no calls leaves the filesystem alone and reports no error. -/
theorem runCalls_nil (fs : FileSystem) : runCalls [] fs = (fs, none) := rfl

/-- A successful call hands its updated filesystem to the remaining calls. -/
theorem runCalls_cons_ok (n : Nat) (p : IconPath) (rest : List (Nat × IconPath))
    (fs fs' : FileSystem) (h : create_train_icon_run fs n p = .ok fs') :
    runCalls ((n, p) :: rest) fs = runCalls rest fs' := by
  simp [runCalls, h]

/-- A failing call stops the script: the error is surfaced and the
filesystem is exactly as it was before the call. -/
theorem runCalls_cons_err (n : Nat) (p : IconPath) (rest : List (Nat × IconPath))
    (fs : FileSystem) (e : SaveError)
    (h : create_train_icon_run fs n p = .error e) :
    runCalls ((n, p) :: rest) fs = (fs, some e) := by
  simp [runCalls, h]

/-! ## Claims -/

/-- C1: for every positive size `S`, `create_train_icon(S, path)` builds
its raster image with `width == height == S` in RGBA mode, and a
successful `save` stores a PNG stream declaring exactly those
dimensions. -/
theorem create_train_icon_dims (S : Nat) (hS : 0 < S) :
    (create_train_icon S).width = S ∧ (create_train_icon S).height = S ∧
    (create_train_icon S).mode = "RGBA" ∧
    ∀ fs p fs', save fs (create_train_icon S) p = .ok fs' →
      fs'.files p = some (pngEncode (create_train_icon S)) ∧
      pngDims (pngEncode (create_train_icon S)) = some (S, S) := by
  refine ⟨rfl, rfl, rfl, ?_⟩
  intro fs p fs' h
  unfold save at h
  split at h
  · cases h
    exact ⟨by simp, pngDims_pngEncode (create_train_icon S)⟩
  · cases h

/-- C1 witness, at `S = 16` on a filesystem with a usable directory. -/
theorem create_train_icon_dims_witness :
    (create_train_icon 16).width = 16 ∧ (create_train_icon 16).height = 16 ∧
    (create_train_icon 16).mode = "RGBA" ∧
    ∀ fs p fs', save fs (create_train_icon 16) p = .ok fs' →
      fs'.files p = some (pngEncode (create_train_icon 16)) ∧
      pngDims (pngEncode (create_train_icon 16)) = some (16, 16) :=
  create_train_icon_dims 16 (by norm_num)

/-- C2: for each requested size (the script requests 16, 48 and 128),
no drawing instruction covers any of the four corner pixels — in
particular the background ellipse, whose margin `int(4*S/128)` is `0`
at `S = 16`, misses them — and the rendered image's corner pixels have
alpha `0`. -/
theorem corners_unpainted (S : Nat) (hS : S = 16 ∨ S = 48 ∨ S = 128) :
    ∀ c ∈ cornerPixels S,
      (∀ i ∈ instrs S, i.covers c.1 c.2 = false) ∧
      ((create_train_icon S).px c.1 c.2).a = 0 := by
  rcases hS with h | h | h <;> subst h <;> decide

/-- C2 witness: the corner `(0, 0)` at size 16. -/
theorem corners_unpainted_witness :
    (∀ i ∈ instrs 16, Instr.covers i 0 0 = false) ∧
    ((create_train_icon 16).px 0 0).a = 0 :=
  corners_unpainted 16 (Or.inl rfl) (0, 0) (by decide)

/-- C3: `create_train_icon` is exactly the sequential composition, on an
initially fully transparent canvas, of the fixed instruction sequence —
background ellipse, body, front wedge, four windows, three wheels,
track, coordinates scaled by `size/128` — where a later instruction
overwrites an earlier one at every pixel both paint and leaves every
other pixel alone (last-write-wins). -/
theorem render_is_fixed_sequence (S : Nat) :
    create_train_icon S = specRender S ∧
    (∀ x y : Int, (newImage S).px x y = transparent) ∧
    (∀ (img : RasterImage) (i : Instr) (x y : Int),
      i.covers x y = true → (drawOn img i).px x y = i.fillColor) ∧
    (∀ (img : RasterImage) (i : Instr) (x y : Int),
      i.covers x y = false → (drawOn img i).px x y = img.px x y) := by
  refine ⟨?_, fun _ _ => rfl, ?_, ?_⟩
  · unfold create_train_icon specRender
    rw [instrs_eq_specInstrs]
  · intro img i x y h
    simp [drawOn, h]
  · intro img i x y h
    simp [drawOn, h]

/-- C3 witness: the composition identity at size 16, and last-write-wins
on a concrete instruction at covered and uncovered pixels. -/
theorem render_is_fixed_sequence_witness :
    create_train_icon 16 = specRender 16 ∧
    (drawOn (newImage 16) (Instr.rect 0 0 3 3 white)).px 1 1 =
      (Instr.rect 0 0 3 3 white).fillColor ∧
    (drawOn (newImage 16) (Instr.rect 0 0 3 3 white)).px 5 5 =
      (newImage 16).px 5 5 :=
  ⟨(render_is_fixed_sequence 16).1,
   (render_is_fixed_sequence 16).2.2.1 (newImage 16) (Instr.rect 0 0 3 3 white)
     1 1 (by decide),
   (render_is_fixed_sequence 16).2.2.2 (newImage 16) (Instr.rect 0 0 3 3 white)
     5 5 (by decide)⟩

/-- C4: rendering at size 16 yields a 16×16 RGBA image whose four corner
pixels have alpha `0` and whose pixel at horizontal offset equal to the
scaled margin `int(4*16/128) = 0`, on the canvas's middle row, carries
the blue background-circle color `(26, 82, 118, 255)`. -/
theorem render16_scenario :
    (create_train_icon 16).width = 16 ∧ (create_train_icon 16).height = 16 ∧
    (create_train_icon 16).mode = "RGBA" ∧
    (∀ c ∈ cornerPixels 16, ((create_train_icon 16).px c.1 c.2).a = 0) ∧
    (create_train_icon 16).px ((scale 4 16 : Nat) : Int) 8 = blue :=
  ⟨rfl, rfl, rfl, by decide, by decide⟩

/-- C5: `create_train_icon` is deterministic — two runs with the same
size and filename arguments produce the same raster image pixel for
pixel, the same PNG byte stream, and the same filesystem outcome from
any starting state. -/
theorem render_deterministic (S₁ S₂ : Nat) (p₁ p₂ : IconPath)
    (hS : S₁ = S₂) (hp : p₁ = p₂) :
    create_train_icon S₁ = create_train_icon S₂ ∧
    pngEncode (create_train_icon S₁) = pngEncode (create_train_icon S₂) ∧
    ∀ fs, create_train_icon_run fs S₁ p₁ = create_train_icon_run fs S₂ p₂ := by
  subst hS; subst hp
  exact ⟨rfl, rfl, fun _ => rfl⟩

/-- C5 witness: two identical runs at size 16 on `icon16.png`. -/
theorem render_deterministic_witness :
    create_train_icon 16 = create_train_icon 16 ∧
    pngEncode (create_train_icon 16) = pngEncode (create_train_icon 16) ∧
    ∀ fs, create_train_icon_run fs 16 icon16Path =
      create_train_icon_run fs 16 icon16Path :=
  render_deterministic 16 16 icon16Path icon16Path rfl rfl

/-- C6: `save` writes the PNG encoding of the image at the given path,
creating or overwriting the file, when the destination directory exists
and is writable; it fails exactly when the directory is missing or
unwritable, and the only error it ever returns is the IOError naming
that directory. -/
theorem save_contract (fs : FileSystem) (img : RasterImage) (p : IconPath) :
    (fs.dirOk p.dir = true →
      ∃ fs', save fs img p = .ok fs' ∧
        fs'.files p = some (pngEncode img) ∧
        ∀ q, q ≠ p → fs'.files q = fs.files q) ∧
    (fs.dirOk p.dir = false → save fs img p = .error (.ioError p.dir)) ∧
    (∀ e, save fs img p = .error e → e = .ioError p.dir) := by
  refine ⟨?_, ?_, ?_⟩
  · intro h
    refine ⟨_, by rw [save, if_pos h], by simp, ?_⟩
    intro q hq
    simp [hq]
  · intro h
    rw [save, if_neg (by simp [h])]
  · intro e he
    unfold save at he
    split at he
    · cases he
    · cases he
      rfl

/-- C6 witness: saving on a filesystem with a usable directory, and the
failure on one with no usable directory. -/
theorem save_contract_witness :
    (∃ fs', save emptyFS (newImage 16) icon16Path = .ok fs' ∧
      fs'.files icon16Path = some (pngEncode (newImage 16)) ∧
      ∀ q, q ≠ icon16Path → fs'.files q = emptyFS.files q) ∧
    save noDirFS (newImage 16) icon16Path = .error (.ioError icon16Path.dir) :=
  ⟨(save_contract emptyFS (newImage 16) icon16Path).1 rfl,
   (save_contract noDirFS (newImage 16) icon16Path).2.1 rfl⟩

/-- C7: each `create_train_icon` call is all-or-nothing — it either
renders fully and its file holds the complete PNG, or it reports the
IOError and produces no partial result; and in the script's top level a
failing call surfaces its error and stops with the filesystem exactly as
it was, earlier successfully saved files intact. -/
theorem per_file_atomic (fs : FileSystem) :
    (∀ S p, (∃ fs', create_train_icon_run fs S p = .ok fs' ∧
        fs'.files p = some (pngEncode (create_train_icon S))) ∨
      create_train_icon_run fs S p = .error (.ioError p.dir)) ∧
    (fs.dirOk iconsDir = true →
      (runMain fs).2 = none ∧
      (runMain fs).1.files icon16Path = some (pngEncode (create_train_icon 16)) ∧
      (runMain fs).1.files icon48Path = some (pngEncode (create_train_icon 48)) ∧
      (runMain fs).1.files icon128Path = some (pngEncode (create_train_icon 128))) ∧
    (fs.dirOk iconsDir = false →
      (runMain fs).2 = some (.ioError iconsDir) ∧ (runMain fs).1 = fs) := by
  have n13 : icon16Path ≠ icon128Path := by decide
  have n12 : icon16Path ≠ icon48Path := by decide
  have n23 : icon48Path ≠ icon128Path := by decide
  refine ⟨?_, ?_, ?_⟩
  · intro S p
    by_cases h : fs.dirOk p.dir
    · left
      exact ⟨_, run_ok fs S p h, by simp [writeIcon]⟩
    · right
      exact run_err fs S p (by simpa using h)
  · intro h
    have w1 := run_ok fs 16 icon16Path h
    have w2 := run_ok (writeIcon fs 16 icon16Path) 48 icon48Path h
    have w3 := run_ok (writeIcon (writeIcon fs 16 icon16Path) 48 icon48Path)
      128 icon128Path h
    have emain : runMain fs =
        (writeIcon (writeIcon (writeIcon fs 16 icon16Path) 48 icon48Path)
          128 icon128Path, none) := by
      rw [runMain, mainCalls, runCalls_cons_ok _ _ _ _ _ w1,
        runCalls_cons_ok _ _ _ _ _ w2, runCalls_cons_ok _ _ _ _ _ w3, runCalls_nil]
    rw [emain]
    exact ⟨rfl, by simp [writeIcon, n13, n12], by simp [writeIcon, n23],
      by simp [writeIcon]⟩
  · intro h
    have h1 : fs.dirOk icon16Path.dir = false := h
    rw [runMain, mainCalls, runCalls_cons_err _ _ _ _ _ (run_err fs 16 icon16Path h1)]
    exact ⟨rfl, rfl⟩

/-- C7 witness: on a filesystem with a usable directory all three files
are written, and with no usable directory the first call's error is
surfaced with the filesystem untouched. -/
theorem per_file_atomic_witness :
    ((runMain emptyFS).2 = none ∧
      (runMain emptyFS).1.files icon16Path = some (pngEncode (create_train_icon 16)) ∧
      (runMain emptyFS).1.files icon48Path = some (pngEncode (create_train_icon 48)) ∧
      (runMain emptyFS).1.files icon128Path = some (pngEncode (create_train_icon 128))) ∧
    ((runMain noDirFS).2 = some (.ioError iconsDir) ∧ (runMain noDirFS).1 = noDirFS) :=
  ⟨(per_file_atomic emptyFS).2.1 rfl, (per_file_atomic noDirFS).2.2 rfl⟩

/-- C8: every scaled coordinate is `int(k * size/128)`, which truncates
the fraction toward zero — `scale k S` is the unique integer with
`128 * scale k S ≤ k * S < 128 * (scale k S + 1)` — so at size 16 the
circle margin `int(4*16/128)` is `0`, making the background ellipse's
bounding box span the whole canvas, and the window corner radius
`int(2*16/128)` is `0`. -/
theorem scale_truncates :
    (∀ k S : Nat, 128 * scale k S ≤ k * S ∧ k * S < 128 * (scale k S + 1)) ∧
    scale 4 16 = 0 ∧ scale 2 16 = 0 ∧
    (instrs 16).head? = some (Instr.ellipse 0 0 16 16 blue) ∧
    (windowInstrs 16).head? = some (Instr.rrect 3 6 4 8 0 blue) := by
  refine ⟨fun k S => by unfold scale; omega, rfl, rfl, by decide, by decide⟩

/-- C9: the renderer is structurally total — for every size the draw-call
list is the same fixed finite sequence of 11 instructions, its only
repetitions the window loop over `range(4)` (4 iterations) and the wheel
loop over the constants `[35, 58, 82]` (3 iterations). -/
theorem render_total (S : Nat) :
    windowIdxs = [0, 1, 2, 3] ∧ wheelXs = [35, 58, 82] ∧
    (windowInstrs S).length = 4 ∧ (wheelInstrs S).length = 3 ∧
    (instrs S).length = 11 :=
  ⟨rfl, rfl, rfl, rfl, rfl⟩

/-- C10: the only filesystem effect of one `create_train_icon(size,
filename)` call is writing the single file at its path: a successful
run writes that file's PNG bytes, leaves every other path's file and the
directory table unchanged, and the written bytes are the same regardless
of what any file held before (nothing is read from the filesystem). -/
theorem frame_effect (fs : FileSystem) (S : Nat) (p : IconPath) :
    (∀ fs', create_train_icon_run fs S p = .ok fs' →
      fs'.files p = some (pngEncode (create_train_icon S)) ∧
      (∀ q, q ≠ p → fs'.files q = fs.files q) ∧
      fs'.dirOk = fs.dirOk) ∧
    (∀ gs : FileSystem, gs.dirOk = fs.dirOk →
      ∀ fs' gs', create_train_icon_run fs S p = .ok fs' →
        create_train_icon_run gs S p = .ok gs' →
        fs'.files p = gs'.files p) := by
  constructor
  · intro fs' h
    unfold create_train_icon_run save at h
    split at h
    · cases h
      refine ⟨by simp, ?_, rfl⟩
      intro q hq
      simp [hq]
    · cases h
  · intro gs hdir fs' gs' h₁ h₂
    unfold create_train_icon_run save at h₁ h₂
    split at h₁
    · cases h₁
      split at h₂
      · cases h₂
        simp
      · cases h₂
    · cases h₁

/-- C10 witness: one concrete run at size 16 on the empty filesystem. -/
theorem frame_effect_witness :
    (writeIcon emptyFS 16 icon16Path).files icon16Path =
      some (pngEncode (create_train_icon 16)) ∧
    (∀ q, q ≠ icon16Path →
      (writeIcon emptyFS 16 icon16Path).files q = emptyFS.files q) ∧
    (writeIcon emptyFS 16 icon16Path).dirOk = emptyFS.dirOk :=
  (frame_effect emptyFS 16 icon16Path).1 (writeIcon emptyFS 16 icon16Path)
    (run_ok emptyFS 16 icon16Path rfl)
